import Mathlib

/-!
Verification of the Ravwvil/order-service repository core against its
specification.

The Go source is shallowly embedded in Lean:

* `backend/internal/domain/validation.go` — the `Order` aggregate and its
  validators (`ValidationResult`, `Order.Validate`, `Delivery.Validate`,
  `Payment.Validate`, `Item.Validate`).
* `backend/internal/service/order.go` — the order service
  (`GetOrderByUID`, `ProcessOrderMessage`).  The Repository and Cache
  collaborators are abstracted by their outcomes; the side effects the
  service performs are recorded as an explicit action trace.
* `backend/internal/broker/kafka/consumer.go` — the per-message portion of
  the consumer fetch cycle (`processOrderWithRetry`, `calculateBackoff`,
  `handleFailedMessage`, and the commit discipline of `consumeMessages`).
  Broker I/O outcomes (service results per attempt, DLQ write success) are
  inputs; DLQ writes and offset commits are recorded as an action trace.
* `backend/internal/repository/postgres` — `OrderRepository.Create`; the
  database is abstracted by the outcome of each statement, the calls made
  inside the transaction are recorded as an action trace.

Go `int`/`int64` fields are modelled as `Int` (no arithmetic in the
embedded code can overflow 64 bits on the inputs considered), Go `string`
as `String`, `time.Duration` as `Int` (nanoseconds), and the `float64`
backoff factor together with the `float64` backoff product as exact
rational arithmetic (`ℚ`); `rand.Int63n` draws are passed in as explicit
nondeterministic inputs.
-/

/-- Go struct `domain.Delivery` (fields used by `Delivery.Validate`). -/
structure Delivery where
  Name : String
  Phone : String
  City : String
  Address : String
deriving DecidableEq, Repr

/-- Go struct `domain.Payment` (fields used by `Payment.Validate`). -/
structure Payment where
  Transaction : String
  Currency : String
  Provider : String
  Amount : Int
  PaymentDt : Int
  DeliveryCost : Int
  GoodsTotal : Int
  CustomFee : Int
deriving DecidableEq, Repr

/-- Go struct `domain.Item` (fields used by `Item.Validate`). -/
structure Item where
  ChrtID : Int
  TrackNumber : String
  Price : Int
  Rid : String
  Name : String
  Sale : Int
  Size : String
  TotalPrice : Int
  NmID : Int
  Brand : String
  Status : Int
deriving DecidableEq, Repr

/-- Go struct `domain.Order` (fields used by `Order.Validate` and the
service layer). -/
structure Order where
  OrderUID : String
  TrackNumber : String
  Entry : String
  Locale : String
  CustomerID : String
  Delivery : Delivery
  Payment : Payment
  Items : List Item
deriving DecidableEq, Repr

/-- Go struct `domain.ValidationError`. -/
structure ValidationError where
  Field : String
  Message : String
deriving DecidableEq, Repr

/-- Go method `ValidationError.Error()`: the text `Field + ": " + Message`. -/
def ValidationError.error (e : ValidationError) : String :=
  e.Field ++ ": " ++ e.Message

/-- Go struct `domain.ValidationResult`. -/
structure ValidationResult where
  Valid : Bool
  Errors : List ValidationError
deriving DecidableEq, Repr

/-- Go method `ValidationResult.AddError`: sets `Valid` to false and appends
the error. -/
def ValidationResult.AddError (vr : ValidationResult) (field message : String) :
    ValidationResult :=
  { Valid := false, Errors := vr.Errors ++ [{ Field := field, Message := message }] }

/-- Go method `ValidationResult.HasErrors`: `len(vr.Errors) > 0`. -/
def ValidationResult.HasErrors (vr : ValidationResult) : Bool :=
  decide (0 < vr.Errors.length)

/-- Go method `ValidationResult.GetFirstError`: `nil` when there are no
errors, otherwise an error whose text is `vr.Errors[0].Error()`.  Go errors
are modelled by their message string, `nil` by `none`. -/
def ValidationResult.GetFirstError (vr : ValidationResult) : Option String :=
  match vr.Errors with
  | [] => none
  | e :: _ => some e.error

/-- One conditional `if cond { result.AddError(field, message) }` step of a
Go validator body. -/
def ValidationResult.vcheck (vr : ValidationResult) (cond : Bool)
    (field message : String) : ValidationResult :=
  if cond then vr.AddError field message else vr

/-- The loop `for _, err := range errs { result.AddError(pre+err.Field,
err.Message) }` used by `Order.Validate` to merge a sub-validator result
under a field prefix.  (The enclosing `if HasErrors()` guard in the Go code
is redundant: the loop body runs zero times on an empty list.) -/
def addPrefixed (pre : String) (errs : List ValidationError)
    (vr : ValidationResult) : ValidationResult :=
  errs.foldl (fun r e => r.AddError (pre ++ e.Field) e.Message) vr

/-- Go `strings.TrimSpace`: strip whitespace from both ends.  (Modelled on
`List Char` so that it reduces in the kernel; the validators only test
whether the trimmed string is empty, and the exact whitespace alphabet
of `unicode.IsSpace` is irrelevant to the claims proved here.) -/
def trimSpace (s : String) : String :=
  String.mk (((s.data.dropWhile Char.isWhitespace).reverse.dropWhile
    Char.isWhitespace).reverse)

/-- Go method `Delivery.Validate` (validation.go). -/
def Delivery.Validate (d : Delivery) : ValidationResult :=
  (ValidationResult.mk true []
    |>.vcheck ((trimSpace d.Name) == "") "name" "required field"
    |>.vcheck ((trimSpace d.Phone) == "") "phone" "required field"
    |>.vcheck ((trimSpace d.City) == "") "city" "required field"
    |>.vcheck ((trimSpace d.Address) == "") "address" "required field")

/-- The message of the payment amount consistency error
(`fmt.Sprintf` in `Payment.Validate`). -/
def Payment.amountMessage (p : Payment) : String :=
  "amount (" ++ toString p.Amount ++
    ") must equal goods_total + delivery_cost + custom_fee (" ++
    toString (p.GoodsTotal + p.DeliveryCost + p.CustomFee) ++ ")"

/-- Go method `Payment.Validate` (validation.go). -/
def Payment.Validate (p : Payment) : ValidationResult :=
  (ValidationResult.mk true []
    |>.vcheck ((trimSpace p.Transaction) == "") "transaction" "required field"
    |>.vcheck ((trimSpace p.Currency) == "") "currency" "required field"
    |>.vcheck ((trimSpace p.Provider) == "") "provider" "required field"
    |>.vcheck (decide (p.Amount < 0)) "amount" "must be non-negative"
    |>.vcheck (decide (p.PaymentDt ≤ 0)) "payment_dt" "must be positive"
    |>.vcheck (decide (p.DeliveryCost < 0)) "delivery_cost" "must be non-negative"
    |>.vcheck (decide (p.GoodsTotal < 0)) "goods_total" "must be non-negative"
    |>.vcheck (decide (p.CustomFee < 0)) "custom_fee" "must be non-negative"
    |>.vcheck (decide (p.Amount ≠ p.GoodsTotal + p.DeliveryCost + p.CustomFee))
      "amount" (Payment.amountMessage p))

/-- Go method `Item.Validate` (validation.go). -/
def Item.Validate (i : Item) : ValidationResult :=
  (ValidationResult.mk true []
    |>.vcheck (decide (i.ChrtID ≤ 0)) "chrt_id" "must be positive"
    |>.vcheck ((trimSpace i.TrackNumber) == "") "track_number" "required field"
    |>.vcheck (decide (i.Price < 0)) "price" "must be non-negative"
    |>.vcheck ((trimSpace i.Rid) == "") "rid" "required field"
    |>.vcheck ((trimSpace i.Name) == "") "name" "required field"
    |>.vcheck (decide (i.Sale < 0)) "sale" "must be non-negative"
    |>.vcheck ((trimSpace i.Size) == "") "size" "required field"
    |>.vcheck (decide (i.TotalPrice < 0)) "total_price" "must be non-negative"
    |>.vcheck (decide (i.NmID ≤ 0)) "nm_id" "must be positive"
    |>.vcheck ((trimSpace i.Brand) == "") "brand" "required field"
    |>.vcheck (decide (i.Status < 0)) "status" "required field")

/-- The loop `for i, item := range o.Items` in `Order.Validate`, merging
each item validator result under the prefix built by
`fmt.Sprintf("items[%d].%s", i, err.Field)`. -/
def itemsFold (items : List Item) (vr : ValidationResult) : ValidationResult :=
  items.enum.foldl
    (fun r p => addPrefixed ("items[" ++ toString p.1 ++ "].") p.2.Validate.Errors r) vr

/-- Go method `Order.Validate` (validation.go). -/
def Order.Validate (o : Order) : ValidationResult :=
  itemsFold o.Items
    (addPrefixed "payment." o.Payment.Validate.Errors
      (addPrefixed "delivery." o.Delivery.Validate.Errors
        (ValidationResult.mk true []
          |>.vcheck (o.OrderUID == "") "order_uid" "required field"
          |>.vcheck (o.TrackNumber == "") "track_number" "required field"
          |>.vcheck (o.Entry == "") "entry" "required field"
          |>.vcheck (o.Locale == "") "locale" "required field"
          |>.vcheck (o.CustomerID == "") "customer_id" "required field"
          |>.vcheck (o.Items.length == 0) "items" "at least one item required")))

/-- A side effect performed by the order service against its collaborators
(`OrderRepository`, `OrderCache` in service/order.go). -/
inductive SvcAction where
  | repoCreate (uid : String)
  | repoGetByUID (uid : String)
  | cacheSet (key : String) (o : Order)
deriving DecidableEq, Repr

/-- Go method `OrderService.GetOrderByUID` (service/order.go).  `cached` is
what `cache.Get(ctx, uid)` returns (`none` = miss), `repoResult` what
`repo.GetByUID(ctx, uid)` returns.  The second component is the trace of
collaborator calls made after the cache lookup. -/
def getOrderByUID (uid : String) (cached : Option Order)
    (repoResult : Except String Order) : Except String Order × List SvcAction :=
  match cached with
  | some o => (Except.ok o, [])
  | none =>
    match repoResult with
    | Except.error e =>
      (Except.error ("failed to get order: " ++ e), [SvcAction.repoGetByUID uid])
    | Except.ok o =>
      (Except.ok o, [SvcAction.repoGetByUID uid, SvcAction.cacheSet uid o])

/-- Go method `OrderService.ProcessOrderMessage` (service/order.go).
`repoResult` is the outcome of `repo.Create` (`none` = success).  Returns
the outcome of the call (`none` = success) and the trace of collaborator
calls. -/
def processOrderMessage (o : Order) (repoResult : Option String) :
    Option String × List SvcAction :=
  if o.Validate.HasErrors then
    (some ("order validation failed: " ++ o.Validate.GetFirstError.getD ""), [])
  else
    match repoResult with
    | some e => (some ("failed to save order: " ++ e), [SvcAction.repoCreate o.OrderUID])
    | none => (none, [SvcAction.repoCreate o.OrderUID, SvcAction.cacheSet o.OrderUID o])

/-- A fetched Kafka record (the fields of `kafka.Message` the consumer
uses). -/
structure KMessage where
  Key : String
  Value : String
  Offset : Int
  Partition : Int
deriving DecidableEq, Repr

/-- The dead-letter record built by `handleFailedMessage`
(consumer.go): original key and payload plus transport headers. -/
structure DLQMessage where
  Key : String
  Value : String
  Headers : List (String × String)
deriving DecidableEq, Repr

/-- A side effect of one consumer fetch cycle: a DLQ write attempt
(`producer.WriteMessages`) or an offset commit attempt
(`reader.CommitMessages`). -/
inductive CAction where
  | dlqWrite (m : DLQMessage)
  | commit (offset partition : Int)
deriving DecidableEq, Repr

/-- The retry loop of `processOrderWithRetry` (consumer.go): walk the
per-attempt outcomes of `orderService.ProcessOrderMessage` (`none` =
success), remembering the last error.  Returns `none` as soon as an
attempt succeeds, otherwise the accumulated last error once the attempt
budget is exhausted. -/
def retryLoop : List (Option String) → Option String → Option String
  | [], lastErr => lastErr
  | none :: _, _ => none
  | some e :: rest, _ => retryLoop rest (some e)

/-- Go method `processOrderWithRetry` (consumer.go).  `outcomes` lists, per
attempt `1..maxRetries`, what `ProcessOrderMessage` would return; on
exhaustion the last error is wrapped by
`fmt.Errorf("failed to process order after %d attempts: %w", ...)`. -/
def processOrderWithRetry (maxRetries : Nat) (outcomes : List (Option String)) :
    Option String :=
  match retryLoop outcomes none with
  | none => none
  | some e =>
    some ("failed to process order after " ++ toString maxRetries ++ " attempts: " ++ e)

/-- Go method `processMessage` (consumer.go): JSON-decode the value into an
`Order` (decode outcome is an input), then process with retry. -/
def processMessage (decoded : Except String Order) (maxRetries : Nat)
    (outcomes : List (Option String)) : Option String :=
  match decoded with
  | Except.error e => some ("unmarshal order: " ++ e)
  | Except.ok _ => processOrderWithRetry maxRetries outcomes

/-- Go method `calculateBackoff` (consumer.go).  Durations are in
nanoseconds (`time.Duration` is an `int64` count of nanoseconds); the
`float64` product `float64(initialRetryDelay) * math.Pow(backoffFactor,
float64(attempt-1))` is modelled exactly in `ℚ` and its conversion
`time.Duration(backoff)` by the floor (the value is non-negative on the
reachable inputs, where truncation and floor agree).  `randJitter` is the
value drawn by `rand.Int63n(jitterMax)`; every call site passes
`attempt ≥ 1`. -/
def calculateBackoff (initialRetryDelay maxRetryDelay : Int)
    (backoffFactor : ℚ) (attempt : Nat) (randJitter : Int) : Int :=
  if initialRetryDelay ≤ 0 ∨ backoffFactor ≤ 1 ∨ maxRetryDelay ≤ 0 then
    initialRetryDelay
  else
    let backoff : ℚ := (initialRetryDelay : ℚ) * backoffFactor ^ (attempt - 1)
    let delay : Int := ⌊backoff⌋
    let delay : Int :=
      if 0 < delay then
        let jitterMax := delay / 10
        if 0 < jitterMax then delay + randJitter else delay
      else delay
    if maxRetryDelay < delay then maxRetryDelay else delay

/-- Go method `handleFailedMessage` (consumer.go).  `dlqConfigured` is
whether `c.producer != nil`, `writeOk` the outcome of
`producer.WriteMessages`, `failedAt` the formatted UTC timestamp.  Returns
the trace of DLQ write attempts and the call outcome (`none` = message
considered handled). -/
def handleFailedMessage (dlqConfigured : Bool) (topic : String) (msg : KMessage)
    (processingErr failedAt : String) (writeOk : Bool) :
    List CAction × Option String :=
  if !dlqConfigured then ([], none)
  else
    let dlqMsg : DLQMessage :=
      { Key := msg.Key, Value := msg.Value,
        Headers :=
          [("x-original-topic", topic),
           ("x-original-offset", toString msg.Offset),
           ("x-original-partition", toString msg.Partition),
           ("x-failure-reason", processingErr),
           ("x-failed-at", failedAt)] }
    if writeOk then ([CAction.dlqWrite dlqMsg], none)
    else ([CAction.dlqWrite dlqMsg], some "failed to write to DLQ")

/-- The per-message tail of the `consumeMessages` loop body (consumer.go,
after a successful fetch): commit on processing success; otherwise try the
DLQ, commit only when `handleFailedMessage` reports success, and skip the
commit (leaving the message for redelivery) when it fails.  Returns the
trace of DLQ write attempts and commit attempts, in order. -/
def consumeFetched (topic : String) (dlqConfigured : Bool) (msg : KMessage)
    (procResult : Option String) (failedAt : String) (dlqWriteOk : Bool) :
    List CAction :=
  match procResult with
  | none => [CAction.commit msg.Offset msg.Partition]
  | some perr =>
    let res := handleFailedMessage dlqConfigured topic msg perr failedAt dlqWriteOk
    match res.2 with
    | some _ => res.1
    | none => res.1 ++ [CAction.commit msg.Offset msg.Partition]

/-- A database call made by `OrderRepository.Create`
(repository/postgres). -/
inductive RepoAction where
  | beginTx
  | insertOrder (uid : String)
  | insertDelivery (uid : String)
  | insertPayment (uid : String)
  | insertItems (uid : String)
  | txCommit
  | txRollback
deriving DecidableEq, Repr

/-- Go method `OrderRepository.Create` (repository/postgres/order.go): it
re-runs `order.Validate()` and returns a validation error before
`db.BeginTxx`; otherwise it inserts the order, delivery, payment and items
inside one transaction, committing on success and rolling back (via the
deferred handler) when any step fails.  Each database outcome is an input
(`none` = success); returns the call outcome and the trace of database
calls. -/
def repositoryCreate (o : Order)
    (beginE insOrderE insDeliveryE insPaymentE insItemsE commitE : Option String) :
    Option String × List RepoAction :=
  if o.Validate.HasErrors then
    (some ("validation failed: " ++ o.Validate.GetFirstError.getD ""), [])
  else
    match beginE with
    | some e => (some ("failed to begin transaction: " ++ e), [RepoAction.beginTx])
    | none =>
      match insOrderE with
      | some e =>
        (some ("failed to create order: " ++ e),
         [RepoAction.beginTx, RepoAction.insertOrder o.OrderUID, RepoAction.txRollback])
      | none =>
        match insDeliveryE with
        | some e =>
          (some ("failed to create delivery: " ++ e),
           [RepoAction.beginTx, RepoAction.insertOrder o.OrderUID,
            RepoAction.insertDelivery o.OrderUID, RepoAction.txRollback])
        | none =>
          match insPaymentE with
          | some e =>
            (some ("failed to create payment: " ++ e),
             [RepoAction.beginTx, RepoAction.insertOrder o.OrderUID,
              RepoAction.insertDelivery o.OrderUID,
              RepoAction.insertPayment o.OrderUID, RepoAction.txRollback])
          | none =>
            match insItemsE with
            | some e =>
              (some ("failed to create items: " ++ e),
               [RepoAction.beginTx, RepoAction.insertOrder o.OrderUID,
                RepoAction.insertDelivery o.OrderUID,
                RepoAction.insertPayment o.OrderUID,
                RepoAction.insertItems o.OrderUID, RepoAction.txRollback])
            | none =>
              match commitE with
              | some e =>
                (some ("failed to commit transaction: " ++ e),
                 [RepoAction.beginTx, RepoAction.insertOrder o.OrderUID,
                  RepoAction.insertDelivery o.OrderUID,
                  RepoAction.insertPayment o.OrderUID,
                  RepoAction.insertItems o.OrderUID, RepoAction.txCommit,
                  RepoAction.txRollback])
              | none =>
                (none,
                 [RepoAction.beginTx, RepoAction.insertOrder o.OrderUID,
                  RepoAction.insertDelivery o.OrderUID,
                  RepoAction.insertPayment o.OrderUID,
                  RepoAction.insertItems o.OrderUID, RepoAction.txCommit])

/-- The invariant claimed for every result the four validators return:
`Valid` tracks emptiness of `Errors`, `HasErrors` tracks non-emptiness, and
`GetFirstError` is `none` exactly on no errors and otherwise the text of
the first error. -/
def ResultInvariant (r : ValidationResult) : Prop :=
  (r.Valid = true ↔ r.Errors = []) ∧
  (r.HasErrors = true ↔ r.Errors ≠ []) ∧
  (r.GetFirstError = none ↔ r.Errors = []) ∧
  r.GetFirstError = r.Errors.head?.map ValidationError.error

/-- A concrete order that fails validation (every string empty, no items). -/
def invalidSampleOrder : Order :=
  { OrderUID := "", TrackNumber := "", Entry := "", Locale := "", CustomerID := "",
    Delivery := { Name := "", Phone := "", City := "", Address := "" },
    Payment := { Transaction := "", Currency := "", Provider := "", Amount := 0,
                 PaymentDt := 0, DeliveryCost := 0, GoodsTotal := 0, CustomFee := 0 },
    Items := [] }

/-- A concrete order that passes validation. -/
def validSampleOrder : Order :=
  { OrderUID := "O1", TrackNumber := "T1", Entry := "WBIL", Locale := "en",
    CustomerID := "cust",
    Delivery := { Name := "Ann Doe", Phone := "+100", City := "City",
                  Address := "Street 1" },
    Payment := { Transaction := "tx1", Currency := "USD", Provider := "pay",
                 Amount := 150, PaymentDt := 1, DeliveryCost := 50,
                 GoodsTotal := 100, CustomFee := 0 },
    Items := [{ ChrtID := 1, TrackNumber := "T1", Price := 100, Rid := "r1",
                Name := "thing", Sale := 0, Size := "0", TotalPrice := 90,
                NmID := 2, Brand := "b", Status := 202 }] }

/-- A concrete order identical to `validSampleOrder` except that its only
item has price zero; it passes validation unchanged. -/
def zeroPriceOrder : Order :=
  { validSampleOrder with
    Items := [{ ChrtID := 1, TrackNumber := "T1", Price := 0, Rid := "r1",
                Name := "thing", Sale := 0, Size := "0", TotalPrice := 90,
                NmID := 2, Brand := "b", Status := 202 }] }

/-- An order identical to `validSampleOrder` except the payment amount is
off by one, violating the amount consistency check. -/
def mismatchedOrder : Order :=
  { validSampleOrder with
    Payment := { validSampleOrder.Payment with Amount := 151 } }

/-- An order identical to `validSampleOrder` except its only item has a
negative price. -/
def negPriceOrder : Order :=
  { validSampleOrder with
    Items := [{ ChrtID := 1, TrackNumber := "T1", Price := -5, Rid := "r1",
                Name := "thing", Sale := 0, Size := "0", TotalPrice := 90,
                NmID := 2, Brand := "b", Status := 202 }] }


theorem AddError_Errors (r : ValidationResult) (f m : String) :
    (r.AddError f m).Errors = r.Errors ++ [ValidationError.mk f m] := rfl

theorem AddError_Valid (r : ValidationResult) (f m : String) :
    (r.AddError f m).Valid = false := rfl

theorem vcheck_Errors (r : ValidationResult) (c : Bool) (f m : String) :
    (r.vcheck c f m).Errors =
      r.Errors ++ (if c then [ValidationError.mk f m] else []) := by
  cases c <;> simp [ValidationResult.vcheck, AddError_Errors]

theorem vcheck_Valid (r : ValidationResult) (c : Bool) (f m : String) :
    (r.vcheck c f m).Valid = (r.Valid && !c) := by
  cases c <;> simp [ValidationResult.vcheck, ValidationResult.AddError]

theorem mem_vcheck_Errors (e : ValidationError) (r : ValidationResult)
    (c : Bool) (f m : String) :
    e ∈ (r.vcheck c f m).Errors ↔
      e ∈ r.Errors ∨ (c = true ∧ e = ValidationError.mk f m) := by
  cases c <;> simp [vcheck_Errors]

theorem addPrefixed_Errors (pre : String) (errs : List ValidationError)
    (r : ValidationResult) :
    (addPrefixed pre errs r).Errors =
      r.Errors ++ errs.map (fun e => ValidationError.mk (pre ++ e.Field) e.Message) := by
  induction errs generalizing r with
  | nil => simp [addPrefixed]
  | cons e rest ih =>
    simp [addPrefixed] at ih ⊢
    rw [ih, AddError_Errors, List.append_assoc]
    rfl

theorem addPrefixed_Valid (pre : String) (errs : List ValidationError)
    (r : ValidationResult) :
    (addPrefixed pre errs r).Valid = (r.Valid && errs.isEmpty) := by
  induction errs generalizing r with
  | nil => simp [addPrefixed]
  | cons e rest ih =>
    simp [addPrefixed] at ih ⊢
    rw [ih, AddError_Valid]
    simp

theorem mem_addPrefixed_Errors (x : ValidationError) (pre : String)
    (errs : List ValidationError) (r : ValidationResult) :
    x ∈ (addPrefixed pre errs r).Errors ↔
      x ∈ r.Errors ∨
        ∃ e ∈ errs, x = ValidationError.mk (pre ++ e.Field) e.Message := by
  rw [addPrefixed_Errors]
  simp only [List.mem_append, List.mem_map]
  constructor
  · rintro (h | ⟨e, he, rfl⟩)
    · exact Or.inl h
    · exact Or.inr ⟨e, he, rfl⟩
  · rintro (h | ⟨e, he, rfl⟩)
    · exact Or.inl h
    · exact Or.inr ⟨e, he, rfl⟩

theorem itemsFold_Errors (items : List Item) (r : ValidationResult) :
    (itemsFold items r).Errors =
      r.Errors ++
        (items.enum.map (fun p =>
          p.2.Validate.Errors.map (fun e =>
            ValidationError.mk ("items[" ++ toString p.1 ++ "]." ++ e.Field)
              e.Message))).flatten := by
  unfold itemsFold
  generalize items.enum = l
  induction l generalizing r with
  | nil => simp
  | cons p rest ih =>
    simp only [List.foldl_cons, List.map_cons, List.flatten_cons]
    rw [ih, addPrefixed_Errors, List.append_assoc]

theorem itemsFold_Valid (items : List Item) (r : ValidationResult) :
    (itemsFold items r).Valid =
      (r.Valid && items.enum.all (fun p => p.2.Validate.Errors.isEmpty)) := by
  unfold itemsFold
  generalize items.enum = l
  induction l generalizing r with
  | nil => simp
  | cons p rest ih =>
    simp only [List.foldl_cons, List.all_cons]
    rw [ih, addPrefixed_Valid, Bool.and_assoc]

theorem mem_itemsFold_Errors (x : ValidationError) (items : List Item)
    (r : ValidationResult) :
    x ∈ (itemsFold items r).Errors ↔
      x ∈ r.Errors ∨
        ∃ p ∈ items.enum, ∃ e ∈ p.2.Validate.Errors,
          x = ValidationError.mk ("items[" ++ toString p.1 ++ "]." ++ e.Field)
                e.Message := by
  rw [itemsFold_Errors]
  simp only [List.mem_append, List.mem_flatten, List.mem_map]
  constructor
  · rintro (h | ⟨_, ⟨p, hp, rfl⟩, hx⟩)
    · exact Or.inl h
    · obtain ⟨e, he, rfl⟩ := List.mem_map.mp hx
      exact Or.inr ⟨p, hp, e, he, rfl⟩
  · rintro (h | ⟨p, hp, e, he, rfl⟩)
    · exact Or.inl h
    · exact Or.inr ⟨_, ⟨p, hp, rfl⟩, List.mem_map.mpr ⟨e, he, rfl⟩⟩

theorem HasErrors_iff (r : ValidationResult) :
    r.HasErrors = true ↔ r.Errors ≠ [] := by
  simp [ValidationResult.HasErrors, List.length_pos]

theorem GetFirstError_eq (r : ValidationResult) :
    r.GetFirstError = r.Errors.head?.map ValidationError.error := by
  cases r with
  | mk v errs => cases errs <;> simp [ValidationResult.GetFirstError]

theorem ite_singleton_eq_nil (c : Bool) (e : ValidationError) :
    ((if c then [e] else []) = ([] : List ValidationError)) ↔ c = false := by
  cases c <;> simp

theorem Delivery_Valid_iff (d : Delivery) :
    d.Validate.Valid = true ↔ d.Validate.Errors = [] := by
  simp only [Delivery.Validate, vcheck_Valid, vcheck_Errors, List.nil_append,
    List.append_eq_nil, ite_singleton_eq_nil, Bool.and_eq_true, Bool.not_eq_true']
  tauto

theorem Payment_Valid_iff (p : Payment) :
    p.Validate.Valid = true ↔ p.Validate.Errors = [] := by
  simp only [Payment.Validate, vcheck_Valid, vcheck_Errors, List.nil_append,
    List.append_eq_nil, ite_singleton_eq_nil, Bool.and_eq_true, Bool.not_eq_true']
  tauto

theorem Item_Valid_iff (i : Item) :
    i.Validate.Valid = true ↔ i.Validate.Errors = [] := by
  simp only [Item.Validate, vcheck_Valid, vcheck_Errors, List.nil_append,
    List.append_eq_nil, ite_singleton_eq_nil, Bool.and_eq_true, Bool.not_eq_true']
  tauto

theorem Order_Valid_iff (o : Order) :
    o.Validate.Valid = true ↔ o.Validate.Errors = [] := by
  simp only [Order.Validate, itemsFold_Valid, itemsFold_Errors, addPrefixed_Valid,
    addPrefixed_Errors, vcheck_Valid, vcheck_Errors, List.nil_append,
    List.append_eq_nil, ite_singleton_eq_nil, Bool.and_eq_true, Bool.not_eq_true',
    List.isEmpty_iff, List.map_eq_nil_iff, List.flatten_eq_nil_iff, List.all_eq_true,
    List.forall_mem_map]
  tauto

theorem delivery_error_fields (d : Delivery) (e : ValidationError)
    (he : e ∈ d.Validate.Errors) :
    e.Field = "name" ∨ e.Field = "phone" ∨ e.Field = "city" ∨
      e.Field = "address" := by
  simp only [Delivery.Validate, mem_vcheck_Errors, List.not_mem_nil, false_or] at he
  rcases he with (((⟨-, rfl⟩ | ⟨-, rfl⟩) | ⟨-, rfl⟩) | ⟨-, rfl⟩) <;> simp

theorem payment_error_fields (p : Payment) (e : ValidationError)
    (he : e ∈ p.Validate.Errors) :
    e.Field = "transaction" ∨ e.Field = "currency" ∨ e.Field = "provider" ∨
      e.Field = "amount" ∨ e.Field = "payment_dt" ∨ e.Field = "delivery_cost" ∨
      e.Field = "goods_total" ∨ e.Field = "custom_fee" := by
  simp only [Payment.Validate, mem_vcheck_Errors, List.not_mem_nil, false_or] at he
  rcases he with ((((((((⟨-, rfl⟩ | ⟨-, rfl⟩) | ⟨-, rfl⟩) | ⟨-, rfl⟩) | ⟨-, rfl⟩) |
    ⟨-, rfl⟩) | ⟨-, rfl⟩) | ⟨-, rfl⟩) | ⟨-, rfl⟩) <;> simp

theorem items_field_ne_payment_amount (s f : String) :
    ("items[" ++ s ++ "]." ++ f) ≠ "payment.amount" := by
  intro h
  have h2 : ("items[".data ++ s.data ++ "].".data) ++ f.data =
      "payment.amount".data := congrArg String.data h
  rw [show "items[".data = 'i' :: "tems[".data from by decide,
    show "payment.amount".data = 'p' :: "ayment.amount".data from by decide] at h2
  simp only [List.cons_append, List.append_assoc] at h2
  simp at h2

theorem GetFirstError_none_iff (r : ValidationResult) :
    r.GetFirstError = none ↔ r.Errors = [] := by
  rw [GetFirstError_eq]
  cases r.Errors <;> simp

/-- C9: every `ValidationResult` returned by `Order.Validate`,
`Delivery.Validate`, `Payment.Validate` or `Item.Validate` satisfies the
invariant: `Valid` holds iff `Errors` is empty, `HasErrors` holds iff
`Errors` is non-empty, and `GetFirstError` is `nil` iff `Errors` is empty,
otherwise an error whose text is the first entry's field and message. -/
theorem c9_validation_result_invariant (o : Order) (d : Delivery) (p : Payment)
    (i : Item) :
    ResultInvariant o.Validate ∧ ResultInvariant d.Validate ∧
      ResultInvariant p.Validate ∧ ResultInvariant i.Validate :=
  ⟨⟨Order_Valid_iff o, HasErrors_iff _, GetFirstError_none_iff _, GetFirstError_eq _⟩,
   ⟨Delivery_Valid_iff d, HasErrors_iff _, GetFirstError_none_iff _, GetFirstError_eq _⟩,
   ⟨Payment_Valid_iff p, HasErrors_iff _, GetFirstError_none_iff _, GetFirstError_eq _⟩,
   ⟨Item_Valid_iff i, HasErrors_iff _, GetFirstError_none_iff _, GetFirstError_eq _⟩⟩

/-- C7: `GetOrderByUID` returns the cached order with no collaborator call
on a cache hit; on a miss it calls the repository, failing without a cache
write when the repository fails, and otherwise caching and returning the
fetched order. -/
theorem c7_get_by_uid_cache_aside (uid : String) (o o' : Order) (e : String)
    (repoResult : Except String Order) :
    getOrderByUID uid (some o) repoResult = (Except.ok o, []) ∧
    getOrderByUID uid none (Except.error e) =
      (Except.error ("failed to get order: " ++ e), [SvcAction.repoGetByUID uid]) ∧
    getOrderByUID uid none (Except.ok o') =
      (Except.ok o', [SvcAction.repoGetByUID uid, SvcAction.cacheSet uid o']) :=
  ⟨rfl, rfl, rfl⟩

/-- C5: `ProcessOrderMessage` writes the cache iff it returns success; on a
validation error it fails immediately with the first violated field and
message and performs no collaborator calls; on a repository failure it
propagates the error without a cache write. -/
theorem c5_process_message_side_effects (o : Order) (rc : Option String) :
    ((processOrderMessage o rc).1 = none ↔
      SvcAction.cacheSet o.OrderUID o ∈ (processOrderMessage o rc).2) ∧
    (o.Validate.HasErrors = true →
      (processOrderMessage o rc).2 = [] ∧
      ∃ v vs, o.Validate.Errors = v :: vs ∧
        (processOrderMessage o rc).1 =
          some ("order validation failed: " ++ v.Field ++ ": " ++ v.Message)) ∧
    (o.Validate.HasErrors = false → ∀ e, rc = some e →
      (processOrderMessage o rc).1 = some ("failed to save order: " ++ e) ∧
      SvcAction.cacheSet o.OrderUID o ∉ (processOrderMessage o rc).2) := by
  refine ⟨?_, ?_, ?_⟩
  · cases h : o.Validate.HasErrors with
    | true =>
      simp [processOrderMessage, h]
    | false =>
      cases rc with
      | none => simp [processOrderMessage, h]
      | some e => simp [processOrderMessage, h]
  · intro h
    have hne : o.Validate.Errors ≠ [] := (HasErrors_iff _).mp h
    obtain ⟨v, vs, hv⟩ : ∃ v vs, o.Validate.Errors = v :: vs := by
      cases hE : o.Validate.Errors with
      | nil => exact absurd hE hne
      | cons a l => exact ⟨a, l, rfl⟩
    refine ⟨by simp [processOrderMessage, h], v, vs, hv, ?_⟩
    have hfst : o.Validate.GetFirstError = some v.error := by
      rw [GetFirstError_eq, hv]
      rfl
    simp [processOrderMessage, h, hfst]
    rfl
  · intro h e he
    subst he
    simp [processOrderMessage, h]

/-- C10: `OrderRepository.Create` re-runs `Order.Validate` and returns a
validation error before any database call whenever the order is invalid:
the action trace is empty (in particular no transaction is begun) and the
outcome carries the first validation error. -/
theorem c10_repository_create_validates_first (o : Order)
    (beginE insOrderE insDeliveryE insPaymentE insItemsE commitE : Option String)
    (h : o.Validate.HasErrors = true) :
    (repositoryCreate o beginE insOrderE insDeliveryE insPaymentE insItemsE
        commitE).2 = [] ∧
    ∃ v vs, o.Validate.Errors = v :: vs ∧
      (repositoryCreate o beginE insOrderE insDeliveryE insPaymentE insItemsE
          commitE).1 =
        some ("validation failed: " ++ v.Field ++ ": " ++ v.Message) := by
  have hne : o.Validate.Errors ≠ [] := (HasErrors_iff _).mp h
  obtain ⟨v, vs, hv⟩ : ∃ v vs, o.Validate.Errors = v :: vs := by
    cases hE : o.Validate.Errors with
    | nil => exact absurd hE hne
    | cons a l => exact ⟨a, l, rfl⟩
  have hfst : o.Validate.GetFirstError = some v.error := by
    rw [GetFirstError_eq, hv]
    rfl
  refine ⟨by simp [repositoryCreate, h], v, vs, hv, ?_⟩
  simp [repositoryCreate, h, hfst]
  rfl

theorem payment_amount_error_mem (p : Payment)
    (hne : p.Amount ≠ p.GoodsTotal + p.DeliveryCost + p.CustomFee) :
    ValidationError.mk "amount" (Payment.amountMessage p) ∈ p.Validate.Errors := by
  simp only [Payment.Validate, mem_vcheck_Errors]
  exact Or.inr ⟨by simpa using hne, trivial⟩

theorem payment_no_amount_error (p : Payment)
    (heq : p.Amount = p.GoodsTotal + p.DeliveryCost + p.CustomFee)
    (h1 : 0 ≤ p.GoodsTotal) (h2 : 0 ≤ p.DeliveryCost) (h3 : 0 ≤ p.CustomFee)
    (m : String) :
    ValidationError.mk "amount" m ∉ p.Validate.Errors := by
  have hA : ¬(p.Amount < 0) := by omega
  intro hmem
  simp only [Payment.Validate, mem_vcheck_Errors, List.not_mem_nil, false_or] at hmem
  rcases hmem with ((((((((⟨hc, he⟩ | ⟨hc, he⟩) | ⟨hc, he⟩) | ⟨hc, he⟩) | ⟨hc, he⟩) |
    ⟨hc, he⟩) | ⟨hc, he⟩) | ⟨hc, he⟩) | ⟨hc, he⟩) <;> simp_all <;> omega

/-- C6: `Order.Validate` reports a `payment.amount` error exactly when the
payment amount differs from `GoodsTotal + DeliveryCost + CustomFee`
(integer equality): when they differ the equality error is present, and
when they agree and the other monetary fields are valid no `payment.amount`
error of any kind is reported. -/
theorem c6_payment_amount_exact_equality (o : Order) :
    (o.Payment.Amount ≠
        o.Payment.GoodsTotal + o.Payment.DeliveryCost + o.Payment.CustomFee →
      ValidationError.mk "payment.amount" (Payment.amountMessage o.Payment) ∈
        o.Validate.Errors) ∧
    (o.Payment.Amount =
        o.Payment.GoodsTotal + o.Payment.DeliveryCost + o.Payment.CustomFee →
      0 ≤ o.Payment.GoodsTotal → 0 ≤ o.Payment.DeliveryCost →
      0 ≤ o.Payment.CustomFee →
      ∀ m, ValidationError.mk "payment.amount" m ∉ o.Validate.Errors) := by
  constructor
  · intro hne
    have hp := payment_amount_error_mem o.Payment hne
    simp only [Order.Validate]
    refine (mem_itemsFold_Errors ..).mpr (Or.inl ((mem_addPrefixed_Errors ..).mpr
      (Or.inr ⟨ValidationError.mk "amount" (Payment.amountMessage o.Payment), hp, ?_⟩)))
    rw [show ("payment." ++ "amount" : String) = "payment.amount" from by decide]
  · intro heq h1 h2 h3 m hmem
    simp only [Order.Validate, mem_itemsFold_Errors, mem_addPrefixed_Errors,
      mem_vcheck_Errors, List.not_mem_nil, false_or] at hmem
    rcases hmem with ((hbase | ⟨e, he, hx⟩) | ⟨e, he, hx⟩) | ⟨q, hq, e, he, hx⟩
    · rcases hbase with (((((⟨hc, hx⟩ | ⟨hc, hx⟩) | ⟨hc, hx⟩) | ⟨hc, hx⟩) | ⟨hc, hx⟩) |
        ⟨hc, hx⟩) <;> simp at hx
    · rcases delivery_error_fields o.Delivery e he with hf | hf | hf | hf <;>
        rw [ValidationError.mk.injEq, hf] at hx <;> simp at hx
    · rcases payment_error_fields o.Payment e he with
        hf | hf | hf | hf | hf | hf | hf | hf <;>
        rw [ValidationError.mk.injEq, hf] at hx
      case _ => simp at hx
      case _ => simp at hx
      case _ => simp at hx
      case _ =>
        obtain ⟨-, hm⟩ := hx
        refine payment_no_amount_error o.Payment heq h1 h2 h3 m ?_
        have he2 : e = ValidationError.mk "amount" m := by
          cases e
          simp_all
        rw [he2] at he
        exact he
      case _ => simp at hx
      case _ => simp at hx
      case _ => simp at hx
      case _ => simp at hx
    · exact items_field_ne_payment_amount (toString q.1) e.Field (by
        rw [ValidationError.mk.injEq] at hx
        exact hx.1.symm)

theorem item_price_error_iff (it : Item) :
    ValidationError.mk "price" "must be non-negative" ∈ it.Validate.Errors ↔
      it.Price < 0 := by
  simp only [Item.Validate, mem_vcheck_Errors, List.not_mem_nil, false_or]
  constructor
  · rintro ((((((((((⟨hc, he⟩ | ⟨hc, he⟩) | ⟨hc, he⟩) | ⟨hc, he⟩) | ⟨hc, he⟩) |
      ⟨hc, he⟩) | ⟨hc, he⟩) | ⟨hc, he⟩) | ⟨hc, he⟩) | ⟨hc, he⟩) | ⟨hc, he⟩) <;>
      simp_all
  · intro h
    exact Or.inl (Or.inl (Or.inl (Or.inl (Or.inl (Or.inl (Or.inl (Or.inl
      (Or.inr ⟨by simpa using h, trivial⟩))))))))

/-- C8 (amended): an item yields a `price` validation error exactly when
its price is negative (the check is `Price < 0`, a non-negativity check,
so a zero price is accepted), and an order containing an item with a
negative price gets the corresponding indexed `items[i].price` error from
`Order.Validate`. -/
theorem c8_item_price_nonnegative (it : Item) (o : Order) (i : ℕ)
    (hi : i < o.Items.length) :
    (ValidationError.mk "price" "must be non-negative" ∈ it.Validate.Errors ↔
      it.Price < 0) ∧
    (o.Items[i].Price < 0 →
      ValidationError.mk ("items[" ++ toString i ++ "].price")
          "must be non-negative" ∈ o.Validate.Errors) := by
  refine ⟨item_price_error_iff it, fun hneg => ?_⟩
  have hitem : ValidationError.mk "price" "must be non-negative" ∈
      (o.Items[i]).Validate.Errors := (item_price_error_iff _).mpr hneg
  have henum : (i, o.Items[i]) ∈ o.Items.enum := by
    have h2 : i < o.Items.enum.length := by
      rw [List.enum_length]
      exact hi
    have h3 : o.Items.enum[i] = (i, o.Items[i]) := List.getElem_enum ..
    rw [← h3]
    exact List.getElem_mem h2
  simp only [Order.Validate]
  refine (mem_itemsFold_Errors ..).mpr (Or.inr ⟨(i, o.Items[i]), henum,
    ValidationError.mk "price" "must be non-negative", hitem, ?_⟩)
  rw [ValidationError.mk.injEq]
  refine ⟨?_, rfl⟩
  rw [String.append_assoc ("items[" ++ toString i) "]." "price",
    show ("]." ++ "price" : String) = "].price" from by decide,
    String.append_assoc "items[" (toString i) "].price"]

/-- C8 counterexample: an order whose only item has price `0` (not
positive) produces no validation error at all, in particular no error on
the item price field, refuting the claim that a non-positive price is
rejected. -/
theorem c8_counterexample_zero_price :
    (zeroPriceOrder.Items.map Item.Price) = [0] ∧
    zeroPriceOrder.Validate.Errors = [] := by decide

theorem retryLoop_all_fail (l : List (Option String)) (e : String)
    (acc : Option String) (hnone : none ∉ l)
    (hlast : l.getLast? = some (some e)) :
    retryLoop l acc = some e := by
  induction l generalizing acc with
  | nil => simp at hlast
  | cons x rest ih =>
    cases x with
    | none => simp at hnone
    | some a =>
      cases rest with
      | nil =>
        rw [List.getLast?_singleton] at hlast
        obtain rfl : a = e := by simpa using hlast
        rfl
      | cons y rest2 =>
        rw [show retryLoop (some a :: y :: rest2) acc = retryLoop (y :: rest2) (some a)
          from rfl]
        refine ih _ ?_ ?_
        · intro hmem
          exact hnone (List.mem_cons_of_mem _ hmem)
        · rw [← List.getLast?_cons_cons]
          exact hlast

/-- C1: when processing of a fetched, decodable message fails on every one
of its `MaxRetries` attempts, the DLQ is configured, and the DLQ write
succeeds, the fetch cycle performs exactly one DLQ write followed by
exactly one commit of the source offset; the dead-letter record's
`x-original-topic` header is the source topic and its `x-failure-reason`
header contains the text of the last attempt's error. -/
theorem c1_exhausted_retries_dlq_then_commit (topic failedAt : String)
    (msg : KMessage) (ord : Order) (maxRetries : ℕ)
    (outcomes : List (Option String)) (e : String)
    (hlen : outcomes.length = maxRetries)
    (hfail : none ∉ outcomes)
    (hlast : outcomes.getLast? = some (some e)) :
    ∃ m : DLQMessage,
      consumeFetched topic true msg
          (processMessage (Except.ok ord) maxRetries outcomes) failedAt true =
        [CAction.dlqWrite m, CAction.commit msg.Offset msg.Partition] ∧
      m.Headers.lookup "x-original-topic" = some topic ∧
      ∃ r, m.Headers.lookup "x-failure-reason" = some r ∧
        ∃ pre post, r = pre ++ e ++ post := by
  have hretry : processMessage (Except.ok ord) maxRetries outcomes =
      some ("failed to process order after " ++ toString maxRetries ++
        " attempts: " ++ e) := by
    show processOrderWithRetry maxRetries outcomes = _
    unfold processOrderWithRetry
    rw [retryLoop_all_fail outcomes e none hfail hlast]
  rw [hretry]
  refine ⟨{ Key := msg.Key, Value := msg.Value,
            Headers :=
              [("x-original-topic", topic),
               ("x-original-offset", toString msg.Offset),
               ("x-original-partition", toString msg.Partition),
               ("x-failure-reason",
                 "failed to process order after " ++ toString maxRetries ++
                   " attempts: " ++ e),
               ("x-failed-at", failedAt)] }, rfl, rfl,
    "failed to process order after " ++ toString maxRetries ++ " attempts: " ++ e,
    rfl,
    "failed to process order after " ++ toString maxRetries ++ " attempts: ", "",
    ?_⟩
  rw [String.append_empty]

/-- C2: when processing of a fetched message fails and the configured DLQ
write also fails, the fetch cycle never commits the source offset: no
commit action of any offset appears in its trace. -/
theorem c2_dlq_failure_no_commit (topic failedAt perr : String) (msg : KMessage)
    (off part : Int) :
    CAction.commit off part ∉
      consumeFetched topic true msg (some perr) failedAt false := by
  intro hmem
  simp [consumeFetched, handleFailedMessage] at hmem

theorem backoff_product_ge_one (I : Int) (F : ℚ) (k : ℕ) (hI : 0 < I)
    (hF : 1 < F) : (1 : ℚ) ≤ (I : ℚ) * F ^ (k - 1) := by
  have hI1 : (1 : ℚ) ≤ (I : ℚ) := by exact_mod_cast hI
  have hF1 : (1 : ℚ) ≤ F ^ (k - 1) := one_le_pow₀ hF.le
  calc (1 : ℚ) = 1 * 1 := by norm_num
  _ ≤ (I : ℚ) * F ^ (k - 1) := by
      exact mul_le_mul hI1 hF1 zero_le_one (le_trans zero_le_one hI1)

theorem backoff_floor_ge_one (I : Int) (F : ℚ) (k : ℕ) (hI : 0 < I)
    (hF : 1 < F) : (1 : Int) ≤ ⌊(I : ℚ) * F ^ (k - 1)⌋ :=
  Int.le_floor.mpr (by exact_mod_cast backoff_product_ge_one I F k hI hF)

/-- C3: for a valid configuration (`InitialRetryDelay > 0`,
`BackoffFactor > 1`, `MaxRetryDelay > 0`) and any admissible random draw,
the delay computed for attempt `k ≥ 1` is
`min(MaxRetryDelay, InitialRetryDelay * BackoffFactor^(k-1))` plus a
jitter bounded by a tenth of that delay; for a degenerate configuration
(`InitialRetryDelay ≤ 0` or `BackoffFactor ≤ 1` or `MaxRetryDelay ≤ 0`)
the delay is the constant `InitialRetryDelay`, independent of the attempt
and of the random draw. -/
theorem c3_backoff_formula (I M : Int) (F : ℚ) (k : ℕ) (j : Int) :
    (I ≤ 0 ∨ F ≤ 1 ∨ M ≤ 0 → calculateBackoff I M F k j = I) ∧
    (0 < I → 1 < F → 0 < M → 1 ≤ k → 0 ≤ j →
      j < max 1 (⌊(I : ℚ) * F ^ (k - 1)⌋ / 10) →
      ∃ jitter : Int, 0 ≤ jitter ∧
        (jitter : ℚ) * 10 < min (M : ℚ) ((I : ℚ) * F ^ (k - 1)) ∧
        calculateBackoff I M F k j = min M ⌊(I : ℚ) * F ^ (k - 1)⌋ + jitter) := by
  constructor
  · intro h
    unfold calculateBackoff
    rw [if_pos h]
  · intro hI hF hM hk hj0 hj
    have hq1 : (1 : ℚ) ≤ (I : ℚ) * F ^ (k - 1) := backoff_product_ge_one I F k hI hF
    have hD1 : (1 : Int) ≤ ⌊(I : ℚ) * F ^ (k - 1)⌋ := backoff_floor_ge_one I F k hI hF
    have hDq : (⌊(I : ℚ) * F ^ (k - 1)⌋ : ℚ) ≤ (I : ℚ) * F ^ (k - 1) := Int.floor_le _
    have hmin_pos : (0 : ℚ) < min (M : ℚ) ((I : ℚ) * F ^ (k - 1)) := by
      refine lt_min ?_ (lt_of_lt_of_le one_pos hq1)
      exact_mod_cast hM
    have hcond : ¬(I ≤ 0 ∨ F ≤ 1 ∨ M ≤ 0) := by
      push_neg
      exact ⟨hI, hF, hM⟩
    unfold calculateBackoff
    rw [if_neg hcond]
    simp only
    set D : Int := ⌊(I : ℚ) * F ^ (k - 1)⌋ with hD
    have hjm10 : D / 10 * 10 ≤ D := Int.ediv_mul_le D (by norm_num)
    rw [if_pos (show (0 : Int) < D by omega)]
    by_cases hjm : (0 : Int) < D / 10
    · rw [if_pos hjm]
      have hjlt : j < D / 10 := by
        have : max 1 (D / 10) = D / 10 := max_eq_right (by omega)
        omega
      by_cases hclamp : M < D + j
      · rw [if_pos hclamp]
        by_cases hDM : D ≤ M
        · refine ⟨M - D, by omega, ?_, ?_⟩
          · have h10 : (M - D) * 10 < D := by omega
            have hDmin : (D : ℚ) ≤ min (M : ℚ) ((I : ℚ) * F ^ (k - 1)) := by
              refine le_min ?_ hDq
              exact_mod_cast hDM
            have : ((M - D : Int) : ℚ) * 10 < (D : ℚ) := by exact_mod_cast h10
            linarith
          · rw [min_eq_right hDM]
            omega
        · refine ⟨0, le_refl 0, by simpa using hmin_pos, ?_⟩
          rw [min_eq_left (by omega : M ≤ D)]
          omega
      · rw [if_neg hclamp]
        have hDM : D ≤ M := by omega
        refine ⟨j, hj0, ?_, ?_⟩
        · have h10 : j * 10 < D := by omega
          have hDmin : (D : ℚ) ≤ min (M : ℚ) ((I : ℚ) * F ^ (k - 1)) := by
            refine le_min ?_ hDq
            exact_mod_cast hDM
          have : (j : ℚ) * 10 < (D : ℚ) := by exact_mod_cast h10
          linarith
        · rw [min_eq_right hDM]
    · rw [if_neg hjm]
      refine ⟨0, le_refl 0, by simpa using hmin_pos, ?_⟩
      by_cases hDM : M < D
      · rw [if_pos hDM, min_eq_left (le_of_lt hDM)]
        omega
      · rw [if_neg hDM, min_eq_right (by omega : D ≤ M)]
        omega

theorem calculateBackoff_zero_jitter (I M : Int) (F : ℚ) (k : ℕ)
    (hI : 0 < I) (hF : 1 < F) (hM : 0 < M) :
    calculateBackoff I M F k 0 = min M ⌊(I : ℚ) * F ^ (k - 1)⌋ := by
  have hD1 : (1 : Int) ≤ ⌊(I : ℚ) * F ^ (k - 1)⌋ := backoff_floor_ge_one I F k hI hF
  have hcond : ¬(I ≤ 0 ∨ F ≤ 1 ∨ M ≤ 0) := by
    push_neg
    exact ⟨hI, hF, hM⟩
  unfold calculateBackoff
  rw [if_neg hcond]
  simp only
  set D : Int := ⌊(I : ℚ) * F ^ (k - 1)⌋ with hD
  rw [if_pos (show (0 : Int) < D by omega)]
  have hsame : (if 0 < D / 10 then D + 0 else D) = D := by
    split <;> omega
  rw [hsame]
  by_cases hDM : M < D
  · rw [if_pos hDM, min_eq_left (le_of_lt hDM)]
  · rw [if_neg hDM, min_eq_right (by omega : D ≤ M)]

theorem calculateBackoff_le_cap (I M : Int) (F : ℚ) (k : ℕ) (r : Int)
    (hI : 0 < I) (hF : 1 < F) (hM : 0 < M) :
    calculateBackoff I M F k r ≤ M := by
  have hcond : ¬(I ≤ 0 ∨ F ≤ 1 ∨ M ≤ 0) := by
    push_neg
    exact ⟨hI, hF, hM⟩
  unfold calculateBackoff
  rw [if_neg hcond]
  simp only
  set d : Int := if 0 < ⌊(I : ℚ) * F ^ (k - 1)⌋ then
      (if 0 < ⌊(I : ℚ) * F ^ (k - 1)⌋ / 10 then ⌊(I : ℚ) * F ^ (k - 1)⌋ + r
       else ⌊(I : ℚ) * F ^ (k - 1)⌋)
    else ⌊(I : ℚ) * F ^ (k - 1)⌋ with hd
  by_cases h : M < d
  · rw [if_pos h]
  · rw [if_neg h]
    omega

/-- C4 counterexample: with the degenerate configuration
`InitialRetryDelay = 100`, `MaxRetryDelay = 50`, `BackoffFactor = 1`, the
computed delay is `100`, which exceeds `MaxRetryDelay`; so the delay is not
bounded above by `MaxRetryDelay` for every configuration. -/
theorem c4_counterexample_cap_exceeded :
    ¬(calculateBackoff 100 50 1 1 0 ≤ 50) := by decide

/-- C4 (amended): for a valid configuration (`InitialRetryDelay > 0`,
`BackoffFactor > 1`, `MaxRetryDelay > 0`), the jitter-free delay sequence
is non-decreasing in the attempt number, and the computed delay is at most
`MaxRetryDelay` for every random draw.  (For a degenerate configuration
the code returns the constant `InitialRetryDelay`, which can exceed
`MaxRetryDelay`, and the random jitter can make individual delays
non-monotone.) -/
theorem c4_backoff_monotone_bounded (I M : Int) (F : ℚ) (a b : ℕ) (r : Int)
    (hI : 0 < I) (hF : 1 < F) (hM : 0 < M) (hab : a ≤ b) :
    calculateBackoff I M F a 0 ≤ calculateBackoff I M F b 0 ∧
    calculateBackoff I M F b r ≤ M := by
  refine ⟨?_, calculateBackoff_le_cap I M F b r hI hF hM⟩
  rw [calculateBackoff_zero_jitter I M F a hI hF hM,
    calculateBackoff_zero_jitter I M F b hI hF hM]
  refine min_le_min le_rfl (Int.floor_le_floor ?_)
  refine mul_le_mul_of_nonneg_left (pow_le_pow_right₀ hF.le ?_) ?_
  · omega
  · positivity

theorem c1_witness :
    ∃ m : DLQMessage,
      consumeFetched "orders" true (KMessage.mk "k1" "v1" 5 0)
          (processMessage (Except.ok validSampleOrder) 2
            [some "boom1", some "boom2"]) "2024-01-01T00:00:00Z" true =
        [CAction.dlqWrite m, CAction.commit 5 0] ∧
      m.Headers.lookup "x-original-topic" = some "orders" ∧
      ∃ r, m.Headers.lookup "x-failure-reason" = some r ∧
        ∃ pre post, r = pre ++ "boom2" ++ post :=
  c1_exhausted_retries_dlq_then_commit "orders" "2024-01-01T00:00:00Z"
    (KMessage.mk "k1" "v1" 5 0) validSampleOrder 2 [some "boom1", some "boom2"]
    "boom2" (by decide) (by decide) (by decide)

theorem c2_witness :
    CAction.commit 7 1 ∉
      consumeFetched "orders" true (KMessage.mk "k2" "v2" 7 1) (some "boom")
        "2024-01-01T00:00:00Z" false :=
  c2_dlq_failure_no_commit "orders" "2024-01-01T00:00:00Z" "boom"
    (KMessage.mk "k2" "v2" 7 1) 7 1

theorem c3_witness :
    calculateBackoff 100 1000 (1/2) 3 0 = 100 ∧
    ∃ jitter : Int, 0 ≤ jitter ∧
      (jitter : ℚ) * 10 < min ((1000 : Int) : ℚ) (((100 : Int) : ℚ) * 2 ^ (2 - 1)) ∧
      calculateBackoff 100 1000 2 2 5 =
        min 1000 ⌊((100 : Int) : ℚ) * 2 ^ (2 - 1)⌋ + jitter :=
  ⟨(c3_backoff_formula 100 1000 (1/2) 3 0).1 (Or.inr (Or.inl (by norm_num))),
   (c3_backoff_formula 100 1000 2 2 5).2 (by norm_num) (by norm_num) (by norm_num)
     (by norm_num) (by norm_num) (by norm_num)⟩

theorem c4_witness :
    calculateBackoff 100 1000 2 1 0 ≤ calculateBackoff 100 1000 2 3 0 ∧
    calculateBackoff 100 1000 2 3 7 ≤ 1000 :=
  c4_backoff_monotone_bounded 100 1000 2 1 3 7 (by norm_num) (by norm_num)
    (by norm_num) (by norm_num)

theorem c5_witness :
    (processOrderMessage invalidSampleOrder (some "db down")).2 = [] ∧
    (processOrderMessage validSampleOrder (some "db down")).1 =
      some ("failed to save order: " ++ "db down") :=
  ⟨((c5_process_message_side_effects invalidSampleOrder (some "db down")).2.1
      (by decide)).1,
   (((c5_process_message_side_effects validSampleOrder (some "db down")).2.2
      (by decide)) "db down" rfl).1⟩

theorem c6_witness :
    ValidationError.mk "payment.amount" (Payment.amountMessage mismatchedOrder.Payment) ∈
      mismatchedOrder.Validate.Errors ∧
    ValidationError.mk "payment.amount" "x" ∉ validSampleOrder.Validate.Errors :=
  ⟨(c6_payment_amount_exact_equality mismatchedOrder).1 (by decide),
   (c6_payment_amount_exact_equality validSampleOrder).2 (by decide) (by decide)
     (by decide) (by decide) "x"⟩

theorem c8_witness :
    ValidationError.mk ("items[" ++ toString 0 ++ "].price") "must be non-negative" ∈
      negPriceOrder.Validate.Errors :=
  (c8_item_price_nonnegative (negPriceOrder.Items.get ⟨0, by decide⟩) negPriceOrder 0
    (by decide)).2 (by decide)

theorem c10_witness :
    (repositoryCreate invalidSampleOrder none none none none none none).2 = [] ∧
    ∃ v vs, invalidSampleOrder.Validate.Errors = v :: vs ∧
      (repositoryCreate invalidSampleOrder none none none none none none).1 =
        some ("validation failed: " ++ v.Field ++ ": " ++ v.Message) :=
  c10_repository_create_validates_first invalidSampleOrder none none none none none
    none (by decide)
